import Mathlib

/-!
Verification development for the WhatsApp bridge server
(`whatsapp-server/src/server.ts`).

The embedding below translates, definition by definition, the connection
lifecycle manager (`safeReconnect`, `isClientHealthy`, the enhanced client
event handlers) and the message ingestion pipeline
(`processIncomingMessage`, `processOutgoingMessage`, the `message`,
`message_create` and `message_ack` handlers) into executable Lean
functions.  External effects (media download, blob upload, audio duration,
timers) are passed in as explicit parameters; a `none`/`threw` value
models a rejected promise.  The theorems then settle the specified
properties of this server.
-/

namespace WhatsAppServer

/-- Constant `MAX_RECONNECT_ATTEMPTS`, server.ts line 116. -/
def MAX_RECONNECT_ATTEMPTS : Nat := 5

/-- Constant `RECONNECT_DELAY` (milliseconds), server.ts line 117. -/
def RECONNECT_DELAY : Nat := 5000

/-- The fields of a raw `whatsapp-web.js` message event that server.ts
reads: `msg.id._serialized`, `msg.id.id`, `msg.type`, `msg.hasMedia`,
`msg.body`, `msg.from`, `msg.to`, `msg.fromMe`, `msg.ack`. -/
structure MsgEvent where
  idSerialized : String
  idId : String
  msgType : String
  hasMedia : Bool
  body : String
  msgFrom : String
  msgTo : String
  fromMe : Bool
  ackVal : Option Int
deriving DecidableEq, Repr

/-- A `ChatMessage` record exactly as constructed by
`processIncomingMessage` / `processOutgoingMessage` / the `send_message`
socket handler in server.ts. -/
structure ChatMessage where
  id : String
  body : String
  msgFrom : String
  msgTo : String
  timestamp : String
  fromMe : Bool
  hasMedia : Bool
  mediaUrl : String
  mediaType : String
  fileName : String
  fileSize : Nat
  isVoiceMessage : Bool
  duration : Nat
  ack : Int
deriving DecidableEq, Repr

/-- The fields of the `MessageMedia` object returned by
`msg.downloadMedia()` that server.ts reads: `media.mimetype`,
`media.filename`, and the decoded byte length of `media.data`. -/
structure MediaData where
  mimetype : String
  filename : Option String
  dataLen : Nat
deriving DecidableEq, Repr

/-- Outcome of `await msg.downloadMedia()`: the promise may reject
(`threw`), resolve to a null/undefined media object, or resolve to a
media object. -/
inductive DownloadResult where
  | threw
  | returned (media : Option MediaData)
deriving DecidableEq, Repr

/-- The external effects `processIncomingMessage`/`processOutgoingMessage`
perform, passed explicitly: the media download outcome, the
`uploadMediaToSupabase(buffer, fileName, mimeType)` call (`none` models a
rejected upload), the `getAudioDuration` helper (whose internal failures
already yield `0`, server.ts lines 262-265), and the two clock reads
(`new Date().toISOString()` and `Date.now()`). -/
structure MediaEnv where
  download : DownloadResult
  upload : MediaData → String → String → Option String
  audioDuration : MediaData → Nat
  nowIso : String
  nowMs : Nat

/-- JavaScript `s.split("/")[1]` as used for the file extension in
server.ts line 1734 (`media.mimetype.split('/')[1]`); an absent second
component renders as `"undefined"` when concatenated in JS. -/
def splitSlashSecond (s : String) : String :=
  match (s.splitOn "/").drop 1 with
  | [] => "undefined"
  | x :: _ => x

/-- Function `processIncomingMessage` (server.ts lines 1722-1793), up to and
including the construction of the `ChatMessage` that is passed to
`addMessage`.  Result `some m` means the function reached
`addMessage(m)`; result `none` means it threw: the rejection of
`msg.downloadMedia()` is not caught inside the function, and an upload
error is caught and rethrown (lines 1758-1761), so in both cases no
message is ever persisted. -/
def processIncomingMessage (msg : MsgEvent) (env : MediaEnv) :
    Option ChatMessage :=
  let isVoiceMessage := msg.msgType == "ptt"
  if msg.hasMedia then
    match env.download with
    | .threw => none
    | .returned none =>
        some { id := msg.idId, body := msg.body, msgFrom := msg.msgFrom,
               msgTo := msg.msgTo, timestamp := env.nowIso, fromMe := false,
               hasMedia := msg.hasMedia, mediaUrl := "", mediaType := "",
               fileName := "", fileSize := 0,
               isVoiceMessage := isVoiceMessage, duration := 0, ack := 3 }
    | .returned (some media) =>
        let extension :=
          if isVoiceMessage then "ogg" else splitSlashSecond media.mimetype
        let defaultFileName :=
          msg.msgType ++ "_" ++ toString env.nowMs ++ "." ++ extension
        let mimeType := if isVoiceMessage then "audio/ogg" else media.mimetype
        match env.upload media (media.filename.getD defaultFileName) mimeType with
        | none => none
        | some url =>
            some { id := msg.idId, body := msg.body, msgFrom := msg.msgFrom,
                   msgTo := msg.msgTo, timestamp := env.nowIso,
                   fromMe := false, hasMedia := msg.hasMedia,
                   mediaUrl := url, mediaType := mimeType,
                   fileName := media.filename.getD defaultFileName,
                   fileSize := media.dataLen,
                   isVoiceMessage := isVoiceMessage,
                   duration :=
                     if isVoiceMessage then env.audioDuration media else 0,
                   ack := 3 }
  else
    some { id := msg.idId, body := msg.body, msgFrom := msg.msgFrom,
           msgTo := msg.msgTo, timestamp := env.nowIso, fromMe := false,
           hasMedia := msg.hasMedia, mediaUrl := "", mediaType := "",
           fileName := "", fileSize := 0, isVoiceMessage := isVoiceMessage,
           duration := 0, ack := 3 }

/-- Function `processOutgoingMessage` (server.ts lines 1796-1869); identical media
pipeline, but `fromMe: true` and `ack: msg.ack || 0`. -/
def processOutgoingMessage (msg : MsgEvent) (env : MediaEnv) :
    Option ChatMessage :=
  let isVoiceMessage := msg.msgType == "ptt"
  if msg.hasMedia then
    match env.download with
    | .threw => none
    | .returned none =>
        some { id := msg.idId, body := msg.body, msgFrom := msg.msgFrom,
               msgTo := msg.msgTo, timestamp := env.nowIso, fromMe := true,
               hasMedia := msg.hasMedia, mediaUrl := "", mediaType := "",
               fileName := "", fileSize := 0,
               isVoiceMessage := isVoiceMessage, duration := 0,
               ack := msg.ackVal.getD 0 }
    | .returned (some media) =>
        let extension :=
          if isVoiceMessage then "ogg" else splitSlashSecond media.mimetype
        let defaultFileName :=
          msg.msgType ++ "_" ++ toString env.nowMs ++ "." ++ extension
        let mimeType := if isVoiceMessage then "audio/ogg" else media.mimetype
        match env.upload media (media.filename.getD defaultFileName) mimeType with
        | none => none
        | some url =>
            some { id := msg.idId, body := msg.body, msgFrom := msg.msgFrom,
                   msgTo := msg.msgTo, timestamp := env.nowIso,
                   fromMe := true, hasMedia := msg.hasMedia,
                   mediaUrl := url, mediaType := mimeType,
                   fileName := media.filename.getD defaultFileName,
                   fileSize := media.dataLen,
                   isVoiceMessage := isVoiceMessage,
                   duration :=
                     if isVoiceMessage then env.audioDuration media else 0,
                   ack := msg.ackVal.getD 0 }
  else
    some { id := msg.idId, body := msg.body, msgFrom := msg.msgFrom,
           msgTo := msg.msgTo, timestamp := env.nowIso, fromMe := true,
           hasMedia := msg.hasMedia, mediaUrl := "", mediaType := "",
           fileName := "", fileSize := 0, isVoiceMessage := isVoiceMessage,
           duration := 0, ack := msg.ackVal.getD 0 }

/-- The module-level mutable connection state of server.ts: the `client`
variable (`clientExists`), whether `client.info` / `client.info.wid` are
set, the flags `isClientReady`, `isReconnecting`, `isInitializing`,
`currentAccountInfo.isReady` (`accountReady`) and
`currentAccountInfo.phoneNumber` (`accountPhone`), the counter
`reconnectAttempts`, and whether `qrCode` is non-null (`hasQr`). -/
structure ConnState where
  clientExists : Bool
  clientHasInfo : Bool
  clientHasWid : Bool
  isClientReady : Bool
  accountReady : Bool
  accountPhone : Option String
  isReconnecting : Bool
  isInitializing : Bool
  reconnectAttempts : Nat
  hasQr : Bool
deriving DecidableEq, Repr

/-- State at process start: no client, no account info, all flags false,
`reconnectAttempts = 0`, no QR code. -/
def initialConnState : ConnState :=
  { clientExists := false, clientHasInfo := false, clientHasWid := false,
    isClientReady := false, accountReady := false, accountPhone := none,
    isReconnecting := false, isInitializing := false,
    reconnectAttempts := 0, hasQr := false }

/-- Function `isClientHealthy` (server.ts lines 190-192):
`!!(client && client.info && client.info.wid && isClientReady)`. -/
def isClientHealthy (s : ConnState) : Bool :=
  s.clientExists && s.clientHasInfo && s.clientHasWid && s.isClientReady

/-- The `isReady` value computed by `GET /whatsapp/status` (server.ts
line 1907): `client && client.info` — note it does not consult
`client.info.wid` or `isClientReady`. -/
def whatsappStatusIsReady (s : ConnState) : Bool :=
  s.clientExists && s.clientHasInfo

/-- The `status` string of the `GET /whatsapp/status` response
(server.ts line 1913). -/
def whatsappStatusString (s : ConnState) : String :=
  if whatsappStatusIsReady s then "ready"
  else if s.hasQr then "qr_pending" else "disconnected"

/-- Events the server broadcasts over Socket.IO in the code modelled
here.  `connectionState tag` is a `logConnectionState(tag, …)` call
(`io.emit('connection-state', …)`); `connectionFailed` is
`io.emit('connection-failed', …)`. -/
inductive Emit where
  | connectionState (tag : String)
  | connectionFailed
  | qrEmit
  | readyEmit
  | accountConnected
  | disconnectedEmit (reason : String)
  | accountDisconnected (reason : String)
  | authFailureEmit
  | accountAuthFailed
  | whatsappMessage (m : ChatMessage)
  | chatUpdated
  | messageAckUpdated (messageId : String) (ackVal : Int)
deriving DecidableEq, Repr

/-- The observable result of one `safeReconnect(reason)` call (server.ts
lines 135-187), executed atomically (the guard flag is set before the
first `await` and cleared in `finally`): the state left behind, the
events broadcast, whether `initializeWhatsAppClient()` was reached, the
delay awaited before it (line 170), and the timers scheduled to run
`safeReconnect` again (only the error path, lines 180-182, plus the one
`initializeWhatsAppClient` schedules on its own failure,
lines 2463-2468). -/
structure ReconnectOutcome where
  state : ConnState
  emits : List Emit
  initializeCalled : Bool
  delayBeforeInit : Option Nat
  retryTimers : List Nat
deriving Repr

/-- The state change performed by `initializeWhatsAppClient`
(server.ts lines 2159-2474) on success, as far as the flags modelled
here go: a fresh `Client` is assigned to `client` (so it exists but has
no `info` yet), `isClientReady` and `currentAccountInfo.isReady` are
cleared at entry, and `isInitializing` ends false via `finally`. -/
def initializeClientState (s : ConnState) : ConnState :=
  { s with clientExists := true, clientHasInfo := false,
           clientHasWid := false, isClientReady := false,
           accountReady := false, isInitializing := false }

/-- One `safeReconnect` call (server.ts lines 135-187), where `initOk` is
whether the inner `initializeWhatsAppClient()` resolves; on rejection
the `catch` block schedules a retry after `RECONNECT_DELAY * 2`
(lines 180-182) and `initializeWhatsAppClient` itself has already
scheduled one after `min(RECONNECT_DELAY * 3, 30000)` (lines 2463-2468).
`client.destroy()` (lines 149-156) tears down the session of an
existing client, so its `info` is gone, but the `client` variable keeps
pointing at the destroyed object. -/
def safeReconnect (s : ConnState) (initOk : Bool) : ReconnectOutcome :=
  if s.isReconnecting || s.isInitializing then
    { state := s, emits := [], initializeCalled := false,
      delayBeforeInit := none, retryTimers := [] }
  else
    let destroyed : ConnState :=
      { s with isClientReady := false, accountReady := false,
               isReconnecting := false,
               clientHasInfo := s.clientHasInfo && !s.clientExists,
               clientHasWid := s.clientHasWid && !s.clientExists,
               reconnectAttempts := s.reconnectAttempts + 1 }
    let destroyEmits :=
      if s.clientExists then [Emit.connectionState "CLIENT_DESTROYED"] else []
    if destroyed.reconnectAttempts > MAX_RECONNECT_ATTEMPTS then
      { state := destroyed,
        emits := Emit.connectionState "RECONNECTING" :: destroyEmits ++
          [Emit.connectionState "MAX_RECONNECT_ATTEMPTS_REACHED",
           Emit.connectionFailed],
        initializeCalled := false, delayBeforeInit := none,
        retryTimers := [] }
    else if initOk then
      { state := initializeClientState destroyed,
        emits := Emit.connectionState "RECONNECTING" :: destroyEmits ++
          [Emit.connectionState "INITIALIZING",
           Emit.connectionState "INITIALIZATION_COMPLETE"],
        initializeCalled := true, delayBeforeInit := some RECONNECT_DELAY,
        retryTimers := [] }
    else
      { state := initializeClientState destroyed,
        emits := Emit.connectionState "RECONNECTING" :: destroyEmits ++
          [Emit.connectionState "INITIALIZING",
           Emit.connectionState "INITIALIZATION_FAILED",
           Emit.connectionState "RECONNECT_FAILED"],
        initializeCalled := true, delayBeforeInit := some RECONNECT_DELAY,
        retryTimers := [min (RECONNECT_DELAY * 3) 30000,
                        RECONNECT_DELAY * 2] }

/-- Driver lifecycle events consumed by
`setupEnhancedClientEventHandlers` (server.ts lines 1547-1719).
`evReady` carries the account phone number that `updateAccountInfo`
derives from `client.info.wid.user` (server.ts line 2133). -/
inductive DriverEvent where
  | evQr
  | evAuthenticated
  | evLoadingScreen
  | evChangeState (st : String)
  | evReady (phone : String)
  | evDisconnected (reason : String)
  | evAuthFailure
deriving DecidableEq, Repr

/-- Result of one enhanced lifecycle event handler: the new module
state, the broadcasts, and whether a `setTimeout(() => safeReconnect(…))`
was installed. -/
structure StepOutput where
  state : ConnState
  emits : List Emit
  reconnectScheduled : Bool
deriving Repr

/-- The enhanced lifecycle event handlers (server.ts lines 1547-1638),
one driver event at a time.  The `ready` handler sets `isClientReady`,
resets `reconnectAttempts`, and runs `updateAccountInfo` (lines
2128-2156), which reads `client.info` — populated by the driver by the
time `ready` fires — and fills `currentAccountInfo`.  The
`disconnected` and `auth_failure` handlers clear the ready flags and
schedule `safeReconnect` unless `isReconnecting` is set (lines
1615-1619 and 1633-1637). -/
def handleLifecycleEvent (s : ConnState) (e : DriverEvent) : StepOutput :=
  match e with
  | .evQr =>
      { state := { s with hasQr := true, reconnectAttempts := 0 },
        emits := [.connectionState "QR_GENERATED", .qrEmit],
        reconnectScheduled := false }
  | .evAuthenticated =>
      { state := s, emits := [.connectionState "AUTHENTICATED"],
        reconnectScheduled := false }
  | .evLoadingScreen =>
      { state := s, emits := [.connectionState "LOADING"],
        reconnectScheduled := false }
  | .evChangeState _ =>
      { state := s, emits := [.connectionState "STATE_CHANGED"],
        reconnectScheduled := false }
  | .evReady phone =>
      { state := { s with isClientReady := true, reconnectAttempts := 0,
                          clientHasInfo := true, clientHasWid := true,
                          accountReady := true, accountPhone := some phone,
                          hasQr := false },
        emits := [.connectionState "READY", .readyEmit, .accountConnected,
                  .connectionState "ACCOUNT_CONNECTED"],
        reconnectScheduled := false }
  | .evDisconnected reason =>
      { state := { s with isClientReady := false, accountReady := false,
                          hasQr := false },
        emits := [.connectionState "DISCONNECTED",
                  .disconnectedEmit reason, .accountDisconnected reason],
        reconnectScheduled := !s.isReconnecting }
  | .evAuthFailure =>
      { state := { s with isClientReady := false, accountReady := false },
        emits := [.connectionState "AUTH_FAILURE", .authFailureEmit,
                  .accountAuthFailed],
        reconnectScheduled := !s.isReconnecting }

/-- The enhanced `message` handler (server.ts lines 1641-1662).  It
mutates none of the module state; the result is the `ChatMessage`
handed to `addMessage` (or `none` if nothing was persisted) together
with the broadcasts.  A `processIncomingMessage` throw is caught at
line 1659 and only logged: nothing is persisted and nothing emitted. -/
def handleMessageEvent (s : ConnState) (msg : MsgEvent) (env : MediaEnv) :
    Option ChatMessage × List Emit :=
  if !s.isClientReady then (none, [])
  else if msg.fromMe then (none, [])
  else if s.accountReady && (s.accountPhone == some msg.msgTo) then
    match processIncomingMessage msg env with
    | none => (none, [])
    | some m => (some m, [.whatsappMessage m, .chatUpdated])
  else (none, [])

/-- The enhanced `message_create` handler (server.ts lines 1665-1686):
outbound echoes, accepted only when `msg.fromMe` and
`msg.from === currentAccountInfo.phoneNumber` with the account ready. -/
def handleMessageCreateEvent (s : ConnState) (msg : MsgEvent)
    (env : MediaEnv) : Option ChatMessage × List Emit :=
  if !s.isClientReady then (none, [])
  else if !msg.fromMe then (none, [])
  else if s.accountReady && (s.accountPhone == some msg.msgFrom) then
    match processOutgoingMessage msg env with
    | none => (none, [])
    | some m => (some m, [.whatsappMessage m, .chatUpdated])
  else (none, [])

/-- The `message_ack` handler (server.ts lines 1695-1718).  It takes the
stored chat messages alongside the module state to make its effect on
them explicit: the handler never touches storage — it only re-emits a
`message-ack-updated` event when `msg.fromMe && currentAccountInfo.isReady`,
and does nothing otherwise. -/
def handleMessageAckEvent (s : ConnState) (store : List ChatMessage)
    (msg : MsgEvent) (ack : Int) : List ChatMessage × List Emit :=
  (store,
   if msg.fromMe && s.accountReady then
     [.messageAckUpdated msg.idSerialized ack]
   else [])

/-- A step of the whole system as far as the connection state goes:
the initial `initializeWhatsAppClient()` call at server start
(server.ts line 2494), a driver lifecycle event, or a scheduled
`safeReconnect` timer firing. -/
inductive SysEvent where
  | clientInit
  | driver (e : DriverEvent)
  | reconnectFire (initOk : Bool)
deriving DecidableEq, Repr

/-- The connection-state transition of one system event. -/
def sysStep (s : ConnState) (e : SysEvent) : ConnState :=
  match e with
  | .clientInit => initializeClientState s
  | .driver ev => (handleLifecycleEvent s ev).state
  | .reconnectFire ok => (safeReconnect s ok).state

/-- Run a sequence of system events from a state. -/
def runSys (s : ConnState) (es : List SysEvent) : ConnState :=
  es.foldl sysStep s

/-- Whether a system event is the driver `ready` event. -/
def isReadyEvent : SysEvent → Bool
  | .driver (.evReady _) => true
  | _ => false

/-- Payload of the `send_message` socket event that the guard logic
reads (server.ts lines 1238-1247). -/
structure SendData where
  phoneNumber : String
  message : String
  mediaUrl : Option String
deriving DecidableEq, Repr

/-- Phone formatting in the `send_message` handler (server.ts lines
1272-1274): keep the number if it contains `@c.us`, else strip
non-digits and append `@c.us`. -/
def formatPhoneNumber (p : String) : String :=
  if (p.splitOn "@c.us").length != 1 then p
  else ((p.toList.filter Char.isDigit).map (fun c => String.mk [c])).foldl
        (· ++ ·) "" ++ "@c.us"

/-- Result of the `send_message` socket handler's guard (server.ts
lines 1256-1267): either the synchronous not-ready error
(`message-sent` with `success: false` before any network call), or the
handler proceeds to `client.sendMessage` with the formatted target. -/
inductive SendResult where
  | notReady
  | attemptedSend (target : String) (viaMedia : Bool)
deriving DecidableEq, Repr

/-- The `send_message` handler up to the point where external calls
begin.  The second component records whether any external call
(media download / `client.sendMessage`) was attempted. -/
def sendMessageHandler (s : ConnState) (d : SendData) :
    SendResult × Bool :=
  if !(isClientHealthy s) then (.notReady, false)
  else (.attemptedSend (formatPhoneNumber d.phoneNumber) d.mediaUrl.isSome,
        true)

/-- Result of `GET /avatar/:contactId` (server.ts lines 710-741):
either the 503 not-ready response, or a `getContactAvatar` fetch. -/
inductive AvatarResult where
  | notReady503
  | fetched (contactId : String)
deriving DecidableEq, Repr

/-- The `GET /avatar/:contactId` handler up to the external call; the
second component records whether `getContactAvatar(client, …)` was
invoked. -/
def avatarEndpointHandler (s : ConnState) (contactId : String) :
    AvatarResult × Bool :=
  if !(isClientHealthy s) then (.notReady503, false)
  else (.fetched contactId, true)

/-! ### Concrete fixtures used by witnesses and counterexamples -/

/-- A connected state: client present with `info.wid`, ready flags set,
account `77001234567@c.us`, no reconnect in flight. -/
def readyState : ConnState :=
  { clientExists := true, clientHasInfo := true, clientHasWid := true,
    isClientReady := true, accountReady := true,
    accountPhone := some "77001234567@c.us", isReconnecting := false,
    isInitializing := false, reconnectAttempts := 0, hasQr := false }

/-- A state in the middle of a reconnect (`isReconnecting` set). -/
def reconnectingState : ConnState :=
  { readyState with isClientReady := false, accountReady := false,
                    isReconnecting := true, reconnectAttempts := 2 }

/-- A client object without session info: `isClientHealthy` is false. -/
def unhealthyState : ConnState :=
  { initialConnState with clientExists := true }

/-- A disconnected state whose reconnect counter stands at 4. -/
def fourAttemptState : ConnState :=
  { readyState with isClientReady := false, accountReady := false,
                    reconnectAttempts := 4 }

/-- A disconnected state whose reconnect counter stands at the cap 5. -/
def exhaustedState : ConnState :=
  { readyState with isClientReady := false, accountReady := false,
                    reconnectAttempts := 5 }

/-- A plain inbound text message addressed to the active account. -/
def msgPlain : MsgEvent :=
  { idSerialized := "false_79990001122@c.us_AAA", idId := "AAA",
    msgType := "chat", hasMedia := false, body := "hi",
    msgFrom := "79990001122@c.us", msgTo := "77001234567@c.us",
    fromMe := false, ackVal := none }

/-- A media environment for a message without media / with a null
download. -/
def envNoMedia : MediaEnv :=
  { download := .returned none, upload := fun _ _ _ => none,
    audioDuration := fun _ => 0,
    nowIso := "2026-01-01T00:00:00.000Z", nowMs := 1700 }

/-- The `ChatMessage` that `processIncomingMessage` builds for
`msgPlain` under `envNoMedia`. -/
def incomingPlainResult : ChatMessage :=
  { id := "AAA", body := "hi", msgFrom := "79990001122@c.us",
    msgTo := "77001234567@c.us", timestamp := "2026-01-01T00:00:00.000Z",
    fromMe := false, hasMedia := false, mediaUrl := "", mediaType := "",
    fileName := "", fileSize := 0, isVoiceMessage := false,
    duration := 0, ack := 3 }

/-- A downloaded JPEG attachment. -/
def mediaJpeg : MediaData :=
  { mimetype := "image/jpeg", filename := some "photo.jpg",
    dataLen := 1024 }

/-- A media environment in which the download succeeds but every
`uploadMediaToSupabase` call rejects. -/
def envUploadFails : MediaEnv :=
  { download := .returned (some mediaJpeg), upload := fun _ _ _ => none,
    audioDuration := fun _ => 0,
    nowIso := "2026-01-01T00:00:00.000Z", nowMs := 1700 }

/-- An inbound image message addressed to the active account. -/
def msgWithMedia : MsgEvent :=
  { idSerialized := "false_79990001122@c.us_CCC", idId := "CCC",
    msgType := "image", hasMedia := true, body := "",
    msgFrom := "79990001122@c.us", msgTo := "77001234567@c.us",
    fromMe := false, ackVal := none }

/-- A stored outbound message currently at ack level 1. -/
def storedOutMsg : ChatMessage :=
  { id := "BBB", body := "yo", msgFrom := "77001234567@c.us",
    msgTo := "79990001122@c.us", timestamp := "2026-01-01T00:00:00.000Z",
    fromMe := true, hasMedia := false, mediaUrl := "", mediaType := "",
    fileName := "", fileSize := 0, isVoiceMessage := false,
    duration := 0, ack := 1 }

/-- A `message_ack` event for `storedOutMsg` raising the level to 2. -/
def ackMsgEvent : MsgEvent :=
  { idSerialized := "BBB", idId := "BBB", msgType := "chat",
    hasMedia := false, body := "yo", msgFrom := "77001234567@c.us",
    msgTo := "79990001122@c.us", fromMe := true, ackVal := some 2 }

/-- A `send_message` payload. -/
def sendDataSample : SendData :=
  { phoneNumber := "+7 700 123-45-67", message := "hi",
    mediaUrl := none }

/-! ### Theorems -/

/-- C10: every inbound message record created by the ingestion path
(`processIncomingMessage`) is persisted with `fromMe = false` and
acknowledgment level fixed at 3 ("read"), regardless of the event. -/
theorem c10_incoming_fromMe_false_ack_read (msg : MsgEvent)
    (env : MediaEnv) (m : ChatMessage)
    (h : processIncomingMessage msg env = some m) :
    m.fromMe = false ∧ m.ack = 3 := by
  unfold processIncomingMessage at h
  split at h
  · split at h
    · exact absurd h (by simp)
    · cases h
      exact ⟨rfl, rfl⟩
    · dsimp only at h
      split at h
      · exact absurd h (by simp)
      · cases h
        exact ⟨rfl, rfl⟩
  · cases h
    exact ⟨rfl, rfl⟩

/-- Witness for C10 at a concrete inbound message. -/
theorem c10_witness :
    incomingPlainResult.fromMe = false ∧ incomingPlainResult.ack = 3 :=
  c10_incoming_fromMe_false_ack_read msgPlain envNoMedia
    incomingPlainResult (by decide)

/-- C4: a `safeReconnect` request while a reconnect (or an
initialization) is already in flight is a no-op: the state is
unchanged, nothing is broadcast, `initializeWhatsAppClient` is not
called, no delay is awaited and no retry is queued. -/
theorem c4_single_flight_guard (s : ConnState) (ok : Bool)
    (h : s.isReconnecting = true ∨ s.isInitializing = true) :
    safeReconnect s ok =
      { state := s, emits := [], initializeCalled := false,
        delayBeforeInit := none, retryTimers := [] } := by
  unfold safeReconnect
  rcases h with h | h <;> simp [h]

/-- Witness for C4 at a concrete in-flight-reconnect state. -/
theorem c4_witness :
    safeReconnect reconnectingState true =
      { state := reconnectingState, emits := [], initializeCalled := false,
        delayBeforeInit := none, retryTimers := [] } :=
  c4_single_flight_guard reconnectingState true (Or.inl rfl)

/-- C5: `isClientHealthy` returns true only when the client exists with
`info.wid` (the driver-confirmed identity) and `isClientReady` is set;
and when it is false, the `send_message` handler and the avatar
endpoint return their synchronous not-ready errors without attempting
any external call. -/
theorem c5_health_check_gates_operations (s : ConnState) (d : SendData)
    (cid : String) :
    (isClientHealthy s = true →
       s.clientExists = true ∧ s.clientHasInfo = true ∧
       s.clientHasWid = true ∧ s.isClientReady = true) ∧
    (isClientHealthy s = false →
       sendMessageHandler s d = (SendResult.notReady, false) ∧
       avatarEndpointHandler s cid = (AvatarResult.notReady503, false)) := by
  constructor
  · intro h
    unfold isClientHealthy at h
    simp only [Bool.and_eq_true] at h
    exact ⟨h.1.1.1, h.1.1.2, h.1.2, h.2⟩
  · intro h
    unfold sendMessageHandler avatarEndpointHandler
    simp [h]

/-- Witness for C5 at a concrete unhealthy state. -/
theorem c5_witness :
    isClientHealthy unhealthyState = false ∧
    sendMessageHandler unhealthyState sendDataSample =
      (SendResult.notReady, false) ∧
    avatarEndpointHandler unhealthyState "79990001122@c.us" =
      (AvatarResult.notReady503, false) :=
  ⟨rfl,
   (c5_health_check_gates_operations unhealthyState sendDataSample
      "79990001122@c.us").2 rfl⟩

/-- Every `safeReconnect` call either awaits no delay (guard taken or
cap exceeded) or awaits exactly `RECONNECT_DELAY` before
`initializeWhatsAppClient` (server.ts line 170). -/
theorem safeReconnect_delay_cases (s : ConnState) (ok : Bool) :
    (safeReconnect s ok).delayBeforeInit = none ∨
    (safeReconnect s ok).delayBeforeInit = some RECONNECT_DELAY := by
  unfold safeReconnect
  repeat' split
  all_goals by_cases hc : MAX_RECONNECT_ATTEMPTS < s.reconnectAttempts + 1 <;>
    simp [hc]

/-- C8: the delays awaited before any two reconnect attempts are
non-decreasing (they are all the constant `RECONNECT_DELAY`), and every
awaited reconnect delay is bounded by `RECONNECT_DELAY`, the configured
delay constant. -/
theorem c8_reconnect_delay_monotone_bounded (s t : ConnState)
    (okS okT : Bool) (dn dm : Nat)
    (hn : (safeReconnect s okS).delayBeforeInit = some dn)
    (hm : (safeReconnect t okT).delayBeforeInit = some dm) :
    dn ≤ dm ∧ dm ≤ RECONNECT_DELAY := by
  rcases safeReconnect_delay_cases s okS with h | h <;> rw [h] at hn
  · exact absurd hn (by simp)
  rcases safeReconnect_delay_cases t okT with h2 | h2 <;> rw [h2] at hm
  · exact absurd hm (by simp)
  obtain rfl := Option.some.inj hn
  obtain rfl := Option.some.inj hm
  exact ⟨Nat.le_refl _, Nat.le_refl _⟩

/-- Witness for C8 at two concrete consecutive attempts. -/
theorem c8_witness :
    RECONNECT_DELAY ≤ RECONNECT_DELAY ∧
    RECONNECT_DELAY ≤ RECONNECT_DELAY :=
  c8_reconnect_delay_monotone_bounded fourAttemptState fourAttemptState
    true true RECONNECT_DELAY RECONNECT_DELAY (by decide) (by decide)

/-- The event trace reaching the C9 state: client created, driver
`ready`, then `disconnected` (which clears the ready flag but leaves
`client.info` in place until the scheduled `safeReconnect` runs). -/
def c9Trace : List SysEvent :=
  [SysEvent.clientInit,
   SysEvent.driver (DriverEvent.evReady "77001234567@c.us"),
   SysEvent.driver (DriverEvent.evDisconnected "NAVIGATION")]

/-- C9: a reachable state in which `GET /whatsapp/status` reports
`"ready"` while `isClientHealthy()` is false, so sending messages and
fetching avatars are simultaneously refused as not ready. -/
theorem c9_status_ready_while_unhealthy :
    whatsappStatusString (runSys initialConnState c9Trace) = "ready" ∧
    isClientHealthy (runSys initialConnState c9Trace) = false ∧
    sendMessageHandler (runSys initialConnState c9Trace) sendDataSample =
      (SendResult.notReady, false) ∧
    avatarEndpointHandler (runSys initialConnState c9Trace)
      "79990001122@c.us" = (AvatarResult.notReady503, false) := by
  decide

/-- C2 counterexample: an acknowledgment-update event that raises the
level (stored 1, event 2 — no regression) for a message present in the
store leaves the store completely unchanged: the claimed mutation of
`ackLevel` is never applied by the `message_ack` handler. -/
theorem c2_counterexample :
    storedOutMsg.ack = 1 ∧ ackMsgEvent.idSerialized = storedOutMsg.id ∧
    (handleMessageAckEvent readyState [storedOutMsg] ackMsgEvent 2).1 =
      [storedOutMsg] ∧
    ((handleMessageAckEvent readyState [storedOutMsg] ackMsgEvent 2).1.map
      ChatMessage.ack = [1]) := by
  decide

/-- C2 amended: the `message_ack` handler never mutates the stored
messages — for every event it returns the store untouched — and its
only effect is re-broadcasting `message-ack-updated` when the event is
for an outbound message while the account is ready (whether or not the
id is known and whether or not the level regresses); all other ack
events are ignored without error.  Stored ack levels therefore never
change after message creation. -/
theorem c2_ack_handler_never_mutates_store (s : ConnState)
    (store : List ChatMessage) (msg : MsgEvent) (a : Int) :
    (handleMessageAckEvent s store msg a).1 = store ∧
    (handleMessageAckEvent s store msg a).2 =
      (if msg.fromMe && s.accountReady then
         [Emit.messageAckUpdated msg.idSerialized a]
       else []) :=
  ⟨rfl, rfl⟩

/-- C1 counterexample: an inbound media message addressed to the active
account whose download succeeds but whose blob upload rejects is NOT
persisted (`addMessage` is never reached) and nothing at all is
broadcast — contradicting the claim that the message is still persisted
with a null media reference and the failure surfaced as a
`MediaProcessingError`. -/
theorem c1_counterexample :
    msgWithMedia.hasMedia = true ∧
    envUploadFails.download = DownloadResult.returned (some mediaJpeg) ∧
    envUploadFails.upload mediaJpeg "photo.jpg" "image/jpeg" = none ∧
    handleMessageEvent readyState msgWithMedia envUploadFails =
      (none, []) := by
  refine ⟨rfl, rfl, rfl, ?_⟩
  decide

/-- C1 amended: for an inbound media event that passes the handler's
guards, a rejected `downloadMedia` or a rejected upload makes
`processIncomingMessage` throw, the event handler catches and merely
logs the error, and the message is NOT persisted (no broadcast either);
only when `downloadMedia` resolves to a null media object is the
message persisted, with empty media fields. -/
theorem c1_media_failure_drops_message (s : ConnState) (msg : MsgEvent)
    (env : MediaEnv) (hready : s.isClientReady = true)
    (hfm : msg.fromMe = false) (hacc : s.accountReady = true)
    (hph : s.accountPhone = some msg.msgTo) (hm : msg.hasMedia = true) :
    (env.download = DownloadResult.threw →
       handleMessageEvent s msg env = (none, [])) ∧
    (∀ media, env.download = DownloadResult.returned (some media) →
       (∀ name mime, env.upload media name mime = none) →
       handleMessageEvent s msg env = (none, [])) ∧
    (env.download = DownloadResult.returned none →
       ∃ m, handleMessageEvent s msg env =
              (some m, [Emit.whatsappMessage m, Emit.chatUpdated]) ∧
            m.mediaUrl = "" ∧ m.hasMedia = true ∧ m.fromMe = false) := by
  refine ⟨?_, ?_, ?_⟩
  · intro hd
    simp [handleMessageEvent, processIncomingMessage, hready, hfm, hacc,
          hph, hm, hd]
  · intro media hd hup
    simp [handleMessageEvent, processIncomingMessage, hready, hfm, hacc,
          hph, hm, hd, hup]
  · intro hd
    refine ⟨{ id := msg.idId, body := msg.body, msgFrom := msg.msgFrom,
              msgTo := msg.msgTo, timestamp := env.nowIso, fromMe := false,
              hasMedia := msg.hasMedia, mediaUrl := "", mediaType := "",
              fileName := "", fileSize := 0,
              isVoiceMessage := msg.msgType == "ptt", duration := 0,
              ack := 3 }, ?_, rfl, hm, rfl⟩
    simp [handleMessageEvent, processIncomingMessage, hready, hfm, hacc,
          hph, hm, hd]

/-- Witness for C1 (amended) at the concrete failing upload. -/
theorem c1_witness :
    handleMessageEvent readyState msgWithMedia envUploadFails =
      (none, []) :=
  (c1_media_failure_drops_message readyState msgWithMedia envUploadFails
      rfl rfl rfl rfl rfl).2.1 mediaJpeg rfl (fun _ _ => rfl)

/-- C6: the enhanced `message` handler ingests an event only when it is
not an own echo and is addressed to the active account identity, and
the `message_create` handler ingests an event only when it is an own
echo originating from the active identity (both additionally require
the ready flag); all other events are ignored. -/
theorem c6_direction_routing (s : ConnState) (msg : MsgEvent)
    (env : MediaEnv) (m : ChatMessage) :
    ((handleMessageEvent s msg env).1 = some m →
       s.isClientReady = true ∧ msg.fromMe = false ∧
       s.accountReady = true ∧ s.accountPhone = some msg.msgTo) ∧
    ((handleMessageCreateEvent s msg env).1 = some m →
       s.isClientReady = true ∧ msg.fromMe = true ∧
       s.accountReady = true ∧ s.accountPhone = some msg.msgFrom) := by
  constructor
  · intro h
    unfold handleMessageEvent at h
    by_cases h1 : s.isClientReady = true
    swap
    · rw [Bool.not_eq_true] at h1
      rw [h1] at h
      exact absurd h (by simp)
    rw [h1] at h
    simp only [Bool.not_true, Bool.false_eq_true, if_false] at h
    by_cases h2 : msg.fromMe = true
    · rw [h2] at h
      exact absurd h (by simp)
    rw [Bool.not_eq_true] at h2
    rw [h2] at h
    simp only [Bool.false_eq_true, if_false] at h
    by_cases h3 : (s.accountReady && (s.accountPhone == some msg.msgTo)) = true
    · rw [Bool.and_eq_true, beq_iff_eq] at h3
      exact ⟨h1, h2, h3.1, h3.2⟩
    · rw [Bool.not_eq_true] at h3
      rw [h3] at h
      exact absurd h (by simp)
  · intro h
    unfold handleMessageCreateEvent at h
    by_cases h1 : s.isClientReady = true
    swap
    · rw [Bool.not_eq_true] at h1
      rw [h1] at h
      exact absurd h (by simp)
    rw [h1] at h
    simp only [Bool.not_true, Bool.false_eq_true, if_false] at h
    by_cases h2 : msg.fromMe = true
    swap
    · rw [Bool.not_eq_true] at h2
      rw [h2] at h
      exact absurd h (by simp)
    rw [h2] at h
    simp only [Bool.not_true, Bool.false_eq_true, if_false] at h
    by_cases h3 : (s.accountReady && (s.accountPhone == some msg.msgFrom)) = true
    · rw [Bool.and_eq_true, beq_iff_eq] at h3
      exact ⟨h1, h2, h3.1, h3.2⟩
    · rw [Bool.not_eq_true] at h3
      rw [h3] at h
      exact absurd h (by simp)

/-- Witness for C6 at a concrete ingested inbound message. -/
theorem c6_witness :
    readyState.isClientReady = true ∧ msgPlain.fromMe = false ∧
    readyState.accountReady = true ∧
    readyState.accountPhone = some msgPlain.msgTo :=
  (c6_direction_routing readyState msgPlain envNoMedia
    incomingPlainResult).1 (by decide)

/-- C3 counterexample: in the execution in which the reconnect counter
reaches the configured cap of 5 (the fifth `safeReconnect` call,
entered with the counter at 4), the call still proceeds to
`initializeWhatsAppClient` — a further automatic reconnect attempt —
and neither the terminal `connection-failed` broadcast nor the
`MAX_RECONNECT_ATTEMPTS_REACHED` transition happens. -/
theorem c3_counterexample :
    fourAttemptState.reconnectAttempts + 1 = MAX_RECONNECT_ATTEMPTS ∧
    (safeReconnect fourAttemptState true).state.reconnectAttempts =
      MAX_RECONNECT_ATTEMPTS ∧
    (safeReconnect fourAttemptState true).initializeCalled = true ∧
    Emit.connectionFailed ∉ (safeReconnect fourAttemptState true).emits ∧
    Emit.connectionState "MAX_RECONNECT_ATTEMPTS_REACHED" ∉
      (safeReconnect fourAttemptState true).emits := by
  refine ⟨rfl, rfl, rfl, ?_, ?_⟩ <;> decide

/-- C3 amended: once the counter stands at the cap (5) or above when a
reconnect request is processed, `initializeWhatsAppClient` is never
called again and the counter never drops back below the cap; when such
a request is not short-circuited by the single-flight guard, it is the
one that exceeds the cap: the `MAX_RECONNECT_ATTEMPTS_REACHED`
transition is logged, the terminal `connection-failed` notification is
broadcast, and no delay is awaited and no retry queued. -/
theorem c3_cap_exceeded_terminal (s : ConnState) (ok : Bool)
    (h : MAX_RECONNECT_ATTEMPTS ≤ s.reconnectAttempts) :
    (safeReconnect s ok).initializeCalled = false ∧
    MAX_RECONNECT_ATTEMPTS ≤ (safeReconnect s ok).state.reconnectAttempts ∧
    (s.isReconnecting = false → s.isInitializing = false →
       Emit.connectionState "MAX_RECONNECT_ATTEMPTS_REACHED" ∈
         (safeReconnect s ok).emits ∧
       Emit.connectionFailed ∈ (safeReconnect s ok).emits ∧
       (safeReconnect s ok).delayBeforeInit = none ∧
       (safeReconnect s ok).retryTimers = []) := by
  by_cases hg : (s.isReconnecting || s.isInitializing) = true
  · unfold safeReconnect
    rw [hg]
    refine ⟨rfl, h, ?_⟩
    intro h1 h2
    rw [h1, h2] at hg
    exact absurd hg (by simp)
  · have hc : MAX_RECONNECT_ATTEMPTS < s.reconnectAttempts + 1 :=
      Nat.lt_succ_of_le h
    rw [Bool.not_eq_true] at hg
    refine ⟨?_, ?_, fun _ _ => ⟨?_, ?_, ?_, ?_⟩⟩ <;>
      (unfold safeReconnect
       rw [hg]
       by_cases hce : s.clientExists = true <;>
         simp [hc, hce, Nat.le_succ_of_le h])

/-- Witness for C3 (amended) at the concrete exhausted state. -/
theorem c3_witness :
    (safeReconnect exhaustedState true).initializeCalled = false ∧
    Emit.connectionFailed ∈ (safeReconnect exhaustedState true).emits :=
  ⟨(c3_cap_exceeded_terminal exhaustedState true (by decide)).1,
   ((c3_cap_exceeded_terminal exhaustedState true (by decide)).2.2 rfl
      rfl).2.1⟩

/-- One system step never sets the ready flag unless it is the driver
`ready` event: `isClientReady` can only become true in the `ready`
handler (server.ts line 1563). -/
theorem sysStep_preserves_not_ready (s : ConnState) (e : SysEvent)
    (h : s.isClientReady = false) (hne : isReadyEvent e = false) :
    (sysStep s e).isClientReady = false := by
  cases e with
  | clientInit => rfl
  | driver ev =>
      cases ev <;> simp_all [sysStep, handleLifecycleEvent, isReadyEvent]
  | reconnectFire ok =>
      unfold sysStep safeReconnect
      by_cases hg : (s.isReconnecting || s.isInitializing) = true
      · rw [hg]
        exact h
      · rw [Bool.not_eq_true] at hg
        rw [hg]
        by_cases hc : MAX_RECONNECT_ATTEMPTS < s.reconnectAttempts + 1 <;>
          by_cases ho : ok = true <;>
          simp [hc, ho, initializeClientState]

/-- Along any run without a driver `ready` event, a cleared ready flag
stays cleared. -/
theorem runSys_preserves_not_ready (es : List SysEvent) :
    ∀ s : ConnState, s.isClientReady = false →
      (∀ e ∈ es, isReadyEvent e = false) →
      (runSys s es).isClientReady = false := by
  induction es with
  | nil => intro s h _; exact h
  | cons e es ih =>
      intro s h hall
      exact ih (sysStep s e)
        (sysStep_preserves_not_ready s e h (hall e (List.mem_cons_self e es)))
        (fun e' he' => hall e' (List.mem_cons_of_mem e he'))

/-- While the ready flag is cleared, the enhanced `message` handler
ignores every inbound event (server.ts lines 1642-1645). -/
theorem message_ignored_when_not_ready (s : ConnState) (msg : MsgEvent)
    (env : MediaEnv) (h : s.isClientReady = false) :
    handleMessageEvent s msg env = (none, []) := by
  simp [handleMessageEvent, h]

/-- C7: when a `disconnected` event fires (with no reconnect already in
flight), the handler clears the ready flag, broadcasts the
disconnection, schedules a `safeReconnect`, and — for any continuation
of the run that does not contain a driver `ready` event — every inbound
message event is ignored: nothing is persisted and nothing broadcast
until the state returns to ready. -/
theorem c7_disconnect_quiescence (s : ConnState) (reason : String)
    (hnr : s.isReconnecting = false) :
    (handleLifecycleEvent s (DriverEvent.evDisconnected reason)).state.isClientReady
        = false ∧
    Emit.disconnectedEmit reason ∈
      (handleLifecycleEvent s (DriverEvent.evDisconnected reason)).emits ∧
    (handleLifecycleEvent s (DriverEvent.evDisconnected reason)).reconnectScheduled
        = true ∧
    ∀ es : List SysEvent, (∀ e ∈ es, isReadyEvent e = false) →
      ∀ msg env,
        handleMessageEvent
          (runSys (handleLifecycleEvent s
            (DriverEvent.evDisconnected reason)).state es) msg env =
          (none, []) := by
  refine ⟨rfl, by simp [handleLifecycleEvent], by simp [handleLifecycleEvent, hnr], ?_⟩
  intro es hall msg env
  exact message_ignored_when_not_ready _ msg env
    (runSys_preserves_not_ready es _ rfl hall)

/-- Witness for C7: concrete disconnect from the ready state, followed
by a fired reconnect and a QR event; a concrete inbound message is
ignored. -/
theorem c7_witness :
    handleMessageEvent
      (runSys (handleLifecycleEvent readyState
        (DriverEvent.evDisconnected "logout")).state
        [SysEvent.reconnectFire true, SysEvent.driver DriverEvent.evQr])
      msgPlain envNoMedia = (none, []) ∧
    (handleLifecycleEvent readyState
      (DriverEvent.evDisconnected "logout")).reconnectScheduled = true :=
  ⟨(c7_disconnect_quiescence readyState "logout" rfl).2.2.2
      [SysEvent.reconnectFire true, SysEvent.driver DriverEvent.evQr]
      (by decide) msgPlain envNoMedia,
   (c7_disconnect_quiescence readyState "logout" rfl).2.2.1⟩

end WhatsAppServer
